import Mathlib

/-!
Verification development for the synthetic OHLCV stock-data generator of the
`pgch` benchmarking repository.  The TypeScript sources contain two textually
identical generator classes, `StockDataGenerator` (data-generation script) and
`StreamingDataGenerator` (streaming-insertion script); each is embedded below
in its own namespace, as exact rational-arithmetic semantics of the JavaScript
number operations used (the sources only use operations that the spec asks to
be read over exact arithmetic: `+ - * /`, `Math.max`, `Math.abs`, `Math.round`,
integer `%`, 32-bit bitwise folding in `hashCode`, and `Date` day iteration,
assumed to run in a UTC timezone so that `getDay` and `toISOString` agree on
the calendar day).
-/

set_option maxRecDepth 10000

/-- Signed 32-bit wrap-around, modelling JavaScript `ToInt32` (the conversion
applied by the bitwise operators `<<` and `&` in `hashCode`). -/
def toInt32 (n : ℤ) : ℤ := (n + 2 ^ 31) % 2 ^ 32 - 2 ^ 31

/-- JavaScript `Math.round` over exact rationals: round half up.  (For the
nonnegative values produced by the generator this is exactly `⌊q + 1/2⌋`.) -/
def jsRound (q : ℚ) : ℚ := (q + 1 / 2).floor

/-- `Math.round(x * 10000) / 10000`: rounding a price to 4 decimal places. -/
def round4 (q : ℚ) : ℚ := ((q * 10000 + 1 / 2).floor : ℚ) / 10000

/-- `Math.round(x * 100) / 100`: rounding to 2 decimal places (used verbatim by
the volume-formula claim for comparison with the code's actual behaviour). -/
def round2 (q : ℚ) : ℚ := ((q * 100 + 1 / 2).floor : ℚ) / 100

/-- JavaScript `Date.prototype.getDay` (0 = Sunday, …, 6 = Saturday) of a day
counted from the Unix epoch 1970-01-01, which was a Thursday (= 4). -/
def dayOfWeek (d : ℕ) : ℕ := (d + 4) % 7

/-- Gregorian civil date `(year, month, day)` of a day count since 1970-01-01
(standard era-based conversion, valid for all day counts from 1970 on). -/
def civilFromDays (n : ℕ) : ℕ × ℕ × ℕ :=
  let z := n + 719468
  let era := z / 146097
  let doe := z % 146097
  let yoe := (doe - doe / 1460 + doe / 36524 - doe / 146096) / 365
  let doy := doe - (365 * yoe + yoe / 4 - yoe / 100)
  let mp := (5 * doy + 2) / 153
  let d := doy - (153 * mp + 2) / 5 + 1
  let m := if mp < 10 then mp + 3 else mp - 9
  (yoe + era * 400 + (if m ≤ 2 then 1 else 0), m, d)

/-- Day count since 1970-01-01 of a Gregorian civil date (valid from 1970 on);
used to embed the date literals `new Date('2014-01-01')` etc. of the source. -/
def daysFromCivil (y m d : ℕ) : ℕ :=
  let y' := if m ≤ 2 then y - 1 else y
  let era := y' / 400
  let yoe := y' % 400
  let doy := (153 * (if 2 < m then m - 3 else m + 9) + 2) / 5 + d - 1
  let doe := yoe * 365 + yoe / 4 - yoe / 100 + doy
  era * 146097 + doe - 719468

/-- Two-digit zero padding, as in ISO-8601 month and day fields. -/
def pad2 (n : ℕ) : String := if n < 10 then "0" ++ toString n else toString n

/-- `d.toISOString().split('T')[0]` of a day count since 1970-01-01: the
ISO-8601 `YYYY-MM-DD` string pushed into the trading-day list. -/
def dateStr (n : ℕ) : String :=
  let c := civilFromDays n
  toString c.1 ++ "-" ++ pad2 c.2.1 ++ "-" ++ pad2 c.2.2

/-- The five numeric output fields of `generateStockPrice` (the record without
`instrument_id` and `date`). -/
structure PriceData where
  «open» : ℚ
  high : ℚ
  low : ℚ
  close : ℚ
  volume : ℚ
  deriving DecidableEq, Repr

namespace StockDataGenerator

/-- One step of `hashCode`'s loop: `hash = ((hash << 5) - hash) + char;
hash = hash & hash` (the `& hash` folds the result back to a signed 32-bit
integer; `hash << 5` is `toInt32 (hash * 32)`). -/
def hashStep (hash : ℤ) (c : ℕ) : ℤ := toInt32 (toInt32 (hash * 32) - hash + c)

/-- `hashCode(str)`: multiply-by-31-style rolling hash over the UTF-16 code
units of `str`, folded to 32 bits each step, with `Math.abs` applied at the
end. -/
def hashCode (s : String) : ℕ := ((s.data.map Char.toNat).foldl hashStep 0).natAbs

/-- One step of the LCG inside `seededRandom`: `x = (x * 9301 + 49297) % 233280`. -/
def lcgNext (x : ℕ) : ℕ := (x * 9301 + 49297) % 233280

/-- Internal state of the closure returned by `seededRandom(seed)` after `n`
calls. -/
def rngState (seed : ℕ) : ℕ → ℕ
  | 0 => seed
  | n + 1 => lcgNext (rngState seed n)

/-- Value in `[0, 1)` returned by the `n`-th call (0-based) of the closure
returned by `seededRandom(seed)`: the state is advanced before dividing. -/
def draw (seed : ℕ) (n : ℕ) : ℚ := (rngState seed (n + 1) : ℚ) / 233280

/-- `basePrice = 50 + (instrumentId % 1000) * 0.1`. -/
def basePrice (id : ℕ) : ℚ := 50 + (id % 1000 : ℕ) * (1 / 10)

/-- `startPrice = previousClose || basePrice`: JavaScript `||` substitutes the
base price when `previousClose` is `undefined` (here `none`) or the falsy
number `0`. -/
def startPrice (id : ℕ) (pc : Option ℚ) : ℚ :=
  match pc with
  | some c => if c = 0 then basePrice id else c
  | none => basePrice id

/-- `volatility = 0.005 + rng() * 0.045` (first draw). -/
def volatility (r1 : ℚ) : ℚ := 5 / 1000 + r1 * (45 / 1000)

/-- `open = Math.max(0.01, startPrice * (1 + openChange))` with
`openChange = (rng() - 0.5) * volatility * 2` (second draw). -/
def openPrice (sp vol r2 : ℚ) : ℚ := max (1 / 100) (sp * (1 + (r2 - 1 / 2) * vol * 2))

/-- `high = open * (1 + Math.abs(highChange))` with
`highChange = rng() * intradayVolatility` and
`intradayVolatility = volatility * 0.5` (third draw). -/
def highPrice (op vol r3 : ℚ) : ℚ := op * (1 + |r3 * (vol * (1 / 2))|)

/-- `low = open * (1 + lowChange)` with
`lowChange = -rng() * intradayVolatility` (fourth draw). -/
def lowPrice (op vol r4 : ℚ) : ℚ := op * (1 + -(r4 * (vol * (1 / 2))))

/-- `close = low + (high - low) * closeRatio` with `closeRatio = rng()`
(fifth draw). -/
def closePrice (lo hi r5 : ℚ) : ℚ := lo + (hi - lo) * r5

/-- `baseVolume = 100000 + (instrumentId % 10000) * 10`. -/
def baseVolume (id : ℕ) : ℚ := 100000 + (id % 10000 : ℕ) * 10

/-- The raw volume expression `baseVolume * volumeMultiplier * (0.5 + rng())`
with `volumeMultiplier = 1 + priceMovement * 5` and
`priceMovement = Math.abs((close - open) / open)` (sixth draw). -/
def volumeProductOf (id : ℕ) (op cl r6 : ℚ) : ℚ :=
  baseVolume id * (1 + |(cl - op) / op| * 5) * (1 / 2 + r6)

/-- `StockDataGenerator.generateStockPrice(instrumentId, date, previousClose)`:
seeds an LCG from `hashCode(instrumentId.toString() + date)`, makes six draws
in source order and returns the rounded five-field record.  The local
`volume` is `Math.round(baseVolume * volumeMultiplier * (0.5 + rng()))`; the
returned field is `Math.round(volume * 100) / 100`. -/
def generateStockPrice (id : ℕ) (date : String) (pc : Option ℚ) : PriceData :=
  let seed := hashCode (toString id ++ date)
  let r1 := draw seed 0
  let r2 := draw seed 1
  let r3 := draw seed 2
  let r4 := draw seed 3
  let r5 := draw seed 4
  let r6 := draw seed 5
  let sp := startPrice id pc
  let vol := volatility r1
  let op := openPrice sp vol r2
  let hi := highPrice op vol r3
  let lo := lowPrice op vol r4
  let cl := closePrice lo hi r5
  let volume := jsRound (volumeProductOf id op cl r6)
  { «open» := round4 op, high := round4 hi, low := round4 lo, close := round4 cl,
    volume := jsRound (volume * 100) / 100 }

/-- The pre-rounding volume product `baseVolume * volumeMultiplier *
(0.5 + rng())` of the record generated for `(id, date, pc)`, recomputed from
the same seed and draw sequence as `generateStockPrice`. -/
def volumeProduct (id : ℕ) (date : String) (pc : Option ℚ) : ℚ :=
  let seed := hashCode (toString id ++ date)
  let r1 := draw seed 0
  let r2 := draw seed 1
  let r3 := draw seed 2
  let r4 := draw seed 3
  let r5 := draw seed 4
  let r6 := draw seed 5
  let sp := startPrice id pc
  let vol := volatility r1
  let op := openPrice sp vol r2
  let hi := highPrice op vol r3
  let lo := lowPrice op vol r4
  let cl := closePrice lo hi r5
  volumeProductOf id op cl r6

/-- The day-iteration loop of `generateTradingDays`, by remaining day count:
for each calendar day `d`, keep it when its weekday is neither Sunday (0) nor
Saturday (6). -/
def tradingLoop : ℕ → ℕ → List ℕ
  | 0, _ => []
  | n + 1, d =>
    if dayOfWeek d ≠ 0 ∧ dayOfWeek d ≠ 6 then d :: tradingLoop n (d + 1)
    else tradingLoop n (d + 1)

/-- `generateTradingDays` with the hard-coded date literals generalised to a
start and end day: iterate every calendar day from `s` to `e` inclusive,
retain weekdays, and push the ISO date string of each. -/
def generateTradingDays (s e : ℕ) : List String := (tradingLoop (e + 1 - s) s).map dateStr

/-- The `tradingDays` instance field: the calendar actually built by the
constructor, for `new Date('2014-01-01')` to `new Date('2023-12-31')`. -/
def tradingDays : List String := generateTradingDays (daysFromCivil 2014 1 1) (daysFromCivil 2023 12 31)

/-- Generator construction embedded as a fallible computation.  The source
constructor (`generateTradingDays` and the field initialisers) contains no
`throw` and no other failure path, so the embedded result is always
`Except.ok` of the built calendar. -/
def constructionResult (s e : ℕ) : Except String (List String) :=
  Except.ok (generateTradingDays s e)

/-- The inner loop of `generateData` for one instrument: generate each date in
order, threading each record's (rounded) `close` forward as the next day's
`previousClose`. -/
def generateSeries (id : ℕ) : Option ℚ → List String → List PriceData
  | _, [] => []
  | pc, d :: ds =>
    let p := generateStockPrice id d pc
    p :: generateSeries id (some p.close) ds

/-- The seed `hashCode(instrumentId.toString() + date)` of a record. -/
def seedOf (id : ℕ) (date : String) : ℕ := hashCode (toString id ++ date)

/-- The `volatility` local of the record generated for `(id, date)`. -/
def volOf (id : ℕ) (date : String) : ℚ := volatility (draw (seedOf id date) 0)

/-- The pre-rounding `open` local of the record generated for `(id, date, pc)`. -/
def opOf (id : ℕ) (date : String) (pc : Option ℚ) : ℚ :=
  openPrice (startPrice id pc) (volOf id date) (draw (seedOf id date) 1)

/-- The pre-rounding `high` local of the record generated for `(id, date, pc)`. -/
def hiOf (id : ℕ) (date : String) (pc : Option ℚ) : ℚ :=
  highPrice (opOf id date pc) (volOf id date) (draw (seedOf id date) 2)

/-- The pre-rounding `low` local of the record generated for `(id, date, pc)`. -/
def loOf (id : ℕ) (date : String) (pc : Option ℚ) : ℚ :=
  lowPrice (opOf id date pc) (volOf id date) (draw (seedOf id date) 3)

/-- The pre-rounding `close` local of the record generated for `(id, date, pc)`. -/
def clOf (id : ℕ) (date : String) (pc : Option ℚ) : ℚ :=
  closePrice (loOf id date pc) (hiOf id date pc) (draw (seedOf id date) 4)

end StockDataGenerator

namespace StreamingDataGenerator

/-- `StreamingDataGenerator.hashCode` loop step (textually identical to the
`StockDataGenerator` method). -/
def hashStep (hash : ℤ) (c : ℕ) : ℤ := toInt32 (toInt32 (hash * 32) - hash + c)

/-- `StreamingDataGenerator.hashCode`. -/
def hashCode (s : String) : ℕ := ((s.data.map Char.toNat).foldl hashStep 0).natAbs

/-- `StreamingDataGenerator.seededRandom` LCG step. -/
def lcgNext (x : ℕ) : ℕ := (x * 9301 + 49297) % 233280

/-- State of `StreamingDataGenerator.seededRandom(seed)` after `n` calls. -/
def rngState (seed : ℕ) : ℕ → ℕ
  | 0 => seed
  | n + 1 => lcgNext (rngState seed n)

/-- `n`-th value drawn from `StreamingDataGenerator.seededRandom(seed)`. -/
def draw (seed : ℕ) (n : ℕ) : ℚ := (rngState seed (n + 1) : ℚ) / 233280

/-- `basePrice` in `StreamingDataGenerator.generateStockPrice`. -/
def basePrice (id : ℕ) : ℚ := 50 + (id % 1000 : ℕ) * (1 / 10)

/-- `startPrice = previousClose || basePrice` in `StreamingDataGenerator`. -/
def startPrice (id : ℕ) (pc : Option ℚ) : ℚ :=
  match pc with
  | some c => if c = 0 then basePrice id else c
  | none => basePrice id

/-- `volatility` in `StreamingDataGenerator.generateStockPrice`. -/
def volatility (r1 : ℚ) : ℚ := 5 / 1000 + r1 * (45 / 1000)

/-- `open` in `StreamingDataGenerator.generateStockPrice`. -/
def openPrice (sp vol r2 : ℚ) : ℚ := max (1 / 100) (sp * (1 + (r2 - 1 / 2) * vol * 2))

/-- `high` in `StreamingDataGenerator.generateStockPrice`. -/
def highPrice (op vol r3 : ℚ) : ℚ := op * (1 + |r3 * (vol * (1 / 2))|)

/-- `low` in `StreamingDataGenerator.generateStockPrice`. -/
def lowPrice (op vol r4 : ℚ) : ℚ := op * (1 + -(r4 * (vol * (1 / 2))))

/-- `close` in `StreamingDataGenerator.generateStockPrice`. -/
def closePrice (lo hi r5 : ℚ) : ℚ := lo + (hi - lo) * r5

/-- `baseVolume` in `StreamingDataGenerator.generateStockPrice`. -/
def baseVolume (id : ℕ) : ℚ := 100000 + (id % 10000 : ℕ) * 10

/-- Raw volume expression in `StreamingDataGenerator.generateStockPrice`. -/
def volumeProductOf (id : ℕ) (op cl r6 : ℚ) : ℚ :=
  baseVolume id * (1 + |(cl - op) / op| * 5) * (1 / 2 + r6)

/-- `StreamingDataGenerator.generateStockPrice` (textually identical method
body to the `StockDataGenerator` one). -/
def generateStockPrice (id : ℕ) (date : String) (pc : Option ℚ) : PriceData :=
  let seed := hashCode (toString id ++ date)
  let r1 := draw seed 0
  let r2 := draw seed 1
  let r3 := draw seed 2
  let r4 := draw seed 3
  let r5 := draw seed 4
  let r6 := draw seed 5
  let sp := startPrice id pc
  let vol := volatility r1
  let op := openPrice sp vol r2
  let hi := highPrice op vol r3
  let lo := lowPrice op vol r4
  let cl := closePrice lo hi r5
  let volume := jsRound (volumeProductOf id op cl r6)
  { «open» := round4 op, high := round4 hi, low := round4 lo, close := round4 cl,
    volume := jsRound (volume * 100) / 100 }

/-- The day-iteration loop of `StreamingDataGenerator.generateTradingDays`. -/
def tradingLoop : ℕ → ℕ → List ℕ
  | 0, _ => []
  | n + 1, d =>
    if dayOfWeek d ≠ 0 ∧ dayOfWeek d ≠ 6 then d :: tradingLoop n (d + 1)
    else tradingLoop n (d + 1)

/-- `StreamingDataGenerator.generateTradingDays`, generalised to a start and
end day (the source hard-codes 2014-01-01 and 2023-12-31). -/
def generateTradingDays (s e : ℕ) : List String := (tradingLoop (e + 1 - s) s).map dateStr

/-- The `tradingDays` instance field of `StreamingDataGenerator`. -/
def tradingDays : List String := generateTradingDays (daysFromCivil 2014 1 1) (daysFromCivil 2023 12 31)

end StreamingDataGenerator

/-! ### Supporting lemmas -/

theorem ratFloor_eq_intFloor (q : ℚ) : q.floor = ⌊q⌋ := by
  rw [Rat.floor_def', Rat.floor_def]

theorem jsRound_eq (q : ℚ) : jsRound q = ((⌊q + 1 / 2⌋ : ℤ) : ℚ) := by
  rw [jsRound, ratFloor_eq_intFloor]

theorem round4_eq (q : ℚ) : round4 q = ((⌊q * 10000 + 1 / 2⌋ : ℤ) : ℚ) / 10000 := by
  rw [round4, ratFloor_eq_intFloor]

theorem round4_mono {a b : ℚ} (h : a ≤ b) : round4 a ≤ round4 b := by
  rw [round4_eq, round4_eq]
  have hf : ⌊a * 10000 + 1 / 2⌋ ≤ ⌊b * 10000 + 1 / 2⌋ := Int.floor_le_floor (by linarith)
  have hc : ((⌊a * 10000 + 1 / 2⌋ : ℤ) : ℚ) ≤ ((⌊b * 10000 + 1 / 2⌋ : ℤ) : ℚ) := by
    exact_mod_cast hf
  linarith

theorem round4_pos {q : ℚ} (h : 1 / 20000 ≤ q) : 0 < round4 q := by
  rw [round4_eq]
  have hf : (1 : ℤ) ≤ ⌊q * 10000 + 1 / 2⌋ := by
    rw [Int.le_floor]
    push_cast
    linarith
  have hc : (1 : ℚ) ≤ ((⌊q * 10000 + 1 / 2⌋ : ℤ) : ℚ) := by exact_mod_cast hf
  linarith

theorem jsRound_nonneg {q : ℚ} (h : 0 ≤ q) : 0 ≤ jsRound q := by
  rw [jsRound_eq]
  have hf : (0 : ℤ) ≤ ⌊q + 1 / 2⌋ := by
    rw [Int.le_floor]
    push_cast
    linarith
  exact_mod_cast hf

theorem jsRound_jsRound_mul_100 (q : ℚ) : jsRound (jsRound q * 100) / 100 = jsRound q := by
  rw [jsRound_eq q, jsRound_eq]
  have h1 : ((⌊q + 1 / 2⌋ : ℤ) : ℚ) * 100 = (((⌊q + 1 / 2⌋ * 100 : ℤ)) : ℚ) := by push_cast; ring
  rw [h1]
  have h2 : ⌊(((⌊q + 1 / 2⌋ * 100 : ℤ)) : ℚ) + 1 / 2⌋ = ⌊q + 1 / 2⌋ * 100 + ⌊(1 / 2 : ℚ)⌋ :=
    Int.floor_int_add _ _
  have h3 : ⌊(1 / 2 : ℚ)⌋ = 0 := by
    rw [Int.floor_eq_zero_iff]
    constructor <;> norm_num
  rw [h2, h3]
  push_cast
  ring

namespace StockDataGenerator

theorem lcgNext_lt (x : ℕ) : lcgNext x < 233280 := Nat.mod_lt _ (by norm_num)

theorem draw_nonneg (s n : ℕ) : 0 ≤ draw s n := by
  unfold draw
  positivity

theorem draw_lt_one (s n : ℕ) : draw s n < 1 := by
  unfold draw
  rw [div_lt_one (by norm_num)]
  have h : rngState s (n + 1) < 233280 := lcgNext_lt (rngState s n)
  exact_mod_cast h

theorem volatility_nonneg {r1 : ℚ} (h : 0 ≤ r1) : 0 ≤ volatility r1 := by
  unfold volatility
  nlinarith

theorem volatility_le {r1 : ℚ} (h : r1 ≤ 1) : volatility r1 ≤ 1 / 20 := by
  unfold volatility
  nlinarith

theorem openPrice_ge (sp vol r2 : ℚ) : 1 / 100 ≤ openPrice sp vol r2 := le_max_left _ _

theorem le_highPrice {op : ℚ} (hop : 0 ≤ op) (vol r3 : ℚ) : op ≤ highPrice op vol r3 := by
  unfold highPrice
  nlinarith [abs_nonneg (r3 * (vol * (1 / 2)))]

theorem lowPrice_le {op vol r4 : ℚ} (hop : 0 ≤ op) (hv : 0 ≤ vol) (h4 : 0 ≤ r4) :
    lowPrice op vol r4 ≤ op := by
  unfold lowPrice
  nlinarith [mul_nonneg h4 (mul_nonneg hv (by norm_num : (0 : ℚ) ≤ 1 / 2))]

theorem lowPrice_ge {op vol r4 : ℚ} (hop : 1 / 100 ≤ op) (hva : 0 ≤ vol) (hvb : vol ≤ 1 / 20)
    (_h4a : 0 ≤ r4) (h4b : r4 ≤ 1) : 39 / 4000 ≤ lowPrice op vol r4 := by
  unfold lowPrice
  have hx : r4 * (vol * (1 / 2)) ≤ 1 / 40 := by nlinarith
  nlinarith

theorem le_closePrice {lo hi r5 : ℚ} (h : lo ≤ hi) (h5 : 0 ≤ r5) : lo ≤ closePrice lo hi r5 := by
  unfold closePrice
  nlinarith [mul_nonneg (sub_nonneg.mpr h) h5]

theorem closePrice_le {lo hi r5 : ℚ} (h : lo ≤ hi) (h5 : r5 ≤ 1) : closePrice lo hi r5 ≤ hi := by
  unfold closePrice
  nlinarith [mul_le_mul_of_nonneg_left h5 (sub_nonneg.mpr h)]

theorem volumeProductOf_nonneg (id : ℕ) {op cl r6 : ℚ} (h6 : 0 ≤ r6) :
    0 ≤ volumeProductOf id op cl r6 := by
  unfold volumeProductOf baseVolume
  have h1 : (0 : ℚ) ≤ 100000 + (id % 10000 : ℕ) * 10 := by positivity
  have h2 : (0 : ℚ) ≤ 1 + |(cl - op) / op| * 5 := by positivity
  have h3 : (0 : ℚ) ≤ 1 / 2 + r6 := by linarith
  exact mul_nonneg (mul_nonneg h1 h2) h3

theorem generateStockPrice_eq (id : ℕ) (date : String) (pc : Option ℚ) :
    generateStockPrice id date pc =
      { «open» := round4 (opOf id date pc), high := round4 (hiOf id date pc),
        low := round4 (loOf id date pc), close := round4 (clOf id date pc),
        volume := jsRound (jsRound (volumeProductOf id (opOf id date pc) (clOf id date pc)
          (draw (seedOf id date) 5)) * 100) / 100 } := rfl

theorem volumeProduct_eq (id : ℕ) (date : String) (pc : Option ℚ) :
    volumeProduct id date pc =
      volumeProductOf id (opOf id date pc) (clOf id date pc) (draw (seedOf id date) 5) := rfl

theorem opOf_ge (id : ℕ) (date : String) (pc : Option ℚ) : 1 / 100 ≤ opOf id date pc :=
  openPrice_ge _ _ _

theorem volOf_nonneg (id : ℕ) (date : String) : 0 ≤ volOf id date :=
  volatility_nonneg (draw_nonneg _ _)

theorem volOf_le (id : ℕ) (date : String) : volOf id date ≤ 1 / 20 :=
  volatility_le (le_of_lt (draw_lt_one _ _))

theorem loOf_le_opOf (id : ℕ) (date : String) (pc : Option ℚ) :
    loOf id date pc ≤ opOf id date pc :=
  lowPrice_le (le_trans (by norm_num) (opOf_ge id date pc)) (volOf_nonneg id date)
    (draw_nonneg _ _)

theorem opOf_le_hiOf (id : ℕ) (date : String) (pc : Option ℚ) :
    opOf id date pc ≤ hiOf id date pc :=
  le_highPrice (le_trans (by norm_num) (opOf_ge id date pc)) _ _

theorem loOf_ge (id : ℕ) (date : String) (pc : Option ℚ) : 39 / 4000 ≤ loOf id date pc :=
  lowPrice_ge (opOf_ge id date pc) (volOf_nonneg id date) (volOf_le id date)
    (draw_nonneg _ _) (le_of_lt (draw_lt_one _ _))

theorem loOf_le_hiOf (id : ℕ) (date : String) (pc : Option ℚ) :
    loOf id date pc ≤ hiOf id date pc :=
  le_trans (loOf_le_opOf id date pc) (opOf_le_hiOf id date pc)

theorem loOf_le_clOf (id : ℕ) (date : String) (pc : Option ℚ) :
    loOf id date pc ≤ clOf id date pc :=
  le_closePrice (loOf_le_hiOf id date pc) (draw_nonneg _ _)

theorem clOf_le_hiOf (id : ℕ) (date : String) (pc : Option ℚ) :
    clOf id date pc ≤ hiOf id date pc :=
  closePrice_le (loOf_le_hiOf id date pc) (le_of_lt (draw_lt_one _ _))

end StockDataGenerator

namespace StockDataGenerator

theorem tradingLoop_succ (n d : ℕ) :
    tradingLoop (n + 1) d =
      if dayOfWeek d ≠ 0 ∧ dayOfWeek d ≠ 6 then d :: tradingLoop n (d + 1)
      else tradingLoop n (d + 1) := rfl

theorem mem_tradingLoop (n : ℕ) : ∀ d x : ℕ, x ∈ tradingLoop n d ↔
    (d ≤ x ∧ x < d + n ∧ dayOfWeek x ≠ 0 ∧ dayOfWeek x ≠ 6) := by
  induction n with
  | zero =>
    intro d x
    simp only [tradingLoop, List.not_mem_nil, false_iff]
    rintro ⟨h1, h2, -⟩
    omega
  | succ n ih =>
    intro d x
    rw [tradingLoop_succ]
    by_cases hd : dayOfWeek d ≠ 0 ∧ dayOfWeek d ≠ 6
    · rw [if_pos hd, List.mem_cons, ih (d + 1) x]
      constructor
      · rintro (rfl | ⟨h1, h2, h3⟩)
        · exact ⟨le_refl _, by omega, hd.1, hd.2⟩
        · exact ⟨by omega, by omega, h3⟩
      · rintro ⟨h1, h2, h3, h4⟩
        by_cases hx : x = d
        · exact Or.inl hx
        · exact Or.inr ⟨by omega, by omega, h3, h4⟩
    · rw [if_neg hd, ih (d + 1) x]
      constructor
      · rintro ⟨h1, h2, h3⟩
        exact ⟨by omega, by omega, h3⟩
      · rintro ⟨h1, h2, h3, h4⟩
        have hx : x ≠ d := by
          intro h
          exact hd (h ▸ ⟨h3, h4⟩)
        exact ⟨by omega, by omega, h3, h4⟩

theorem sorted_tradingLoop (n : ℕ) : ∀ d : ℕ, List.Sorted (· < ·) (tradingLoop n d) := by
  induction n with
  | zero =>
    intro d
    simp [tradingLoop]
  | succ n ih =>
    intro d
    rw [tradingLoop_succ]
    by_cases hd : dayOfWeek d ≠ 0 ∧ dayOfWeek d ≠ 6
    · rw [if_pos hd]
      refine List.sorted_cons.mpr ⟨?_, ih (d + 1)⟩
      intro b hb
      have := (mem_tradingLoop n (d + 1) b).1 hb
      omega
    · rw [if_neg hd]
      exact ih (d + 1)

theorem startPrice_some_zero (id : ℕ) : startPrice id (some 0) = startPrice id none := by
  simp [startPrice]

end StockDataGenerator

open StockDataGenerator

/-- C1.  Per-record generation is deterministic: for equal triples
`(instrument_id, date, previous_close)`, two invocations of
`generateStockPrice` agree on all five output fields.  In this embedding
`generateStockPrice` is a pure function of exactly these three arguments — its
only randomness source is the LCG seeded from `hashCode(id.toString() + date)`
— so determinism is the statement that the output is a function of the inputs. -/
theorem generateStockPrice_deterministic (id₁ id₂ : ℕ) (date₁ date₂ : String)
    (pc₁ pc₂ : Option ℚ) (h1 : id₁ = id₂) (h2 : date₁ = date₂) (h3 : pc₁ = pc₂) :
    (generateStockPrice id₁ date₁ pc₁).«open» = (generateStockPrice id₂ date₂ pc₂).«open» ∧
    (generateStockPrice id₁ date₁ pc₁).high = (generateStockPrice id₂ date₂ pc₂).high ∧
    (generateStockPrice id₁ date₁ pc₁).low = (generateStockPrice id₂ date₂ pc₂).low ∧
    (generateStockPrice id₁ date₁ pc₁).close = (generateStockPrice id₂ date₂ pc₂).close ∧
    (generateStockPrice id₁ date₁ pc₁).volume = (generateStockPrice id₂ date₂ pc₂).volume := by
  subst h1
  subst h2
  subst h3
  exact ⟨rfl, rfl, rfl, rfl, rfl⟩

/-- Witness for C1 at the concrete input `(1, "2014-01-01", none)`. -/
theorem generateStockPrice_deterministic_witness :
    (generateStockPrice 1 "2014-01-01" none).«open» = (generateStockPrice 1 "2014-01-01" none).«open» ∧
    (generateStockPrice 1 "2014-01-01" none).high = (generateStockPrice 1 "2014-01-01" none).high ∧
    (generateStockPrice 1 "2014-01-01" none).low = (generateStockPrice 1 "2014-01-01" none).low ∧
    (generateStockPrice 1 "2014-01-01" none).close = (generateStockPrice 1 "2014-01-01" none).close ∧
    (generateStockPrice 1 "2014-01-01" none).volume = (generateStockPrice 1 "2014-01-01" none).volume :=
  generateStockPrice_deterministic 1 1 "2014-01-01" "2014-01-01" none none rfl rfl rfl

/-- C2.  Price ordering invariant: every generated record satisfies
`low ≤ open ≤ high` and `low ≤ close ≤ high` (hence `low ≤ high`), after the
4-decimal rounding of the returned prices. -/
theorem generateStockPrice_price_ordering (id : ℕ) (date : String) (pc : Option ℚ) :
    (generateStockPrice id date pc).low ≤ (generateStockPrice id date pc).«open» ∧
    (generateStockPrice id date pc).«open» ≤ (generateStockPrice id date pc).high ∧
    (generateStockPrice id date pc).low ≤ (generateStockPrice id date pc).close ∧
    (generateStockPrice id date pc).close ≤ (generateStockPrice id date pc).high ∧
    (generateStockPrice id date pc).low ≤ (generateStockPrice id date pc).high := by
  simp only [generateStockPrice_eq]
  exact ⟨round4_mono (loOf_le_opOf id date pc), round4_mono (opOf_le_hiOf id date pc),
    round4_mono (loOf_le_clOf id date pc), round4_mono (clOf_le_hiOf id date pc),
    round4_mono (loOf_le_hiOf id date pc)⟩

/-- C3.  Positivity: every generated record has `open > 0`, `high > 0`,
`low > 0` and `volume ≥ 0`.  This holds for every natural `instrument_id`
(hence in particular on `[1, 10^6]`) and every optional `previous_close`,
because `open` is floored at `0.01` by `Math.max` and the intraday downward
move is bounded by half the daily volatility (at most `1/40`). -/
theorem generateStockPrice_positive (id : ℕ) (date : String) (pc : Option ℚ) :
    0 < (generateStockPrice id date pc).«open» ∧
    0 < (generateStockPrice id date pc).high ∧
    0 < (generateStockPrice id date pc).low ∧
    0 ≤ (generateStockPrice id date pc).volume := by
  simp only [generateStockPrice_eq]
  have hop : (1 : ℚ) / 20000 ≤ opOf id date pc := le_trans (by norm_num) (opOf_ge id date pc)
  have hhi : (1 : ℚ) / 20000 ≤ hiOf id date pc := le_trans hop (opOf_le_hiOf id date pc)
  have hlo : (1 : ℚ) / 20000 ≤ loOf id date pc := le_trans (by norm_num) (loOf_ge id date pc)
  have h1 : 0 ≤ volumeProductOf id (opOf id date pc) (clOf id date pc)
      (draw (seedOf id date) 5) := volumeProductOf_nonneg id (draw_nonneg _ _)
  have h2 : 0 ≤ jsRound (volumeProductOf id (opOf id date pc) (clOf id date pc)
      (draw (seedOf id date) 5)) := jsRound_nonneg h1
  have h3 : 0 ≤ jsRound (volumeProductOf id (opOf id date pc) (clOf id date pc)
      (draw (seedOf id date) 5)) * 100 := mul_nonneg h2 (by norm_num)
  exact ⟨round4_pos hop, round4_pos hhi, round4_pos hlo,
    div_nonneg (jsRound_nonneg h3) (by norm_num)⟩

/-- C4 (amended).  The volume field equals the raw product
`baseVolume * (1 + 5·|(close − open)/open|) * (0.5 + rng())` rounded to the
NEAREST INTEGER (`Math.round` with no scaling); the subsequent
`Math.round(volume * 100) / 100` is the identity on that integer, so the
returned volume is the 0-decimal, not the 2-decimal, rounding of the product. -/
theorem volume_is_integer_rounding (id : ℕ) (date : String) (pc : Option ℚ) :
    (generateStockPrice id date pc).volume = jsRound (volumeProduct id date pc) := by
  simp only [generateStockPrice_eq, volumeProduct_eq]
  exact jsRound_jsRound_mul_100 _

/-- C5 (amended).  Generator construction never fails: for every start and end
day it returns `Except.ok` of the built weekday calendar (the source
constructor has no failure path), and when the start is after the end the
calendar built is empty — a degenerate but valid outcome, not an error. -/
theorem construction_never_fails :
    (∀ s e : ℕ, constructionResult s e = Except.ok (generateTradingDays s e)) ∧
    (∀ s e : ℕ, e < s → generateTradingDays s e = []) := by
  refine ⟨fun s e => rfl, fun s e h => ?_⟩
  unfold generateTradingDays
  rw [show e + 1 - s = 0 by omega]
  rfl

/-- Witness for C5's amended theorem at the concrete range `s = 5 > e = 3`. -/
theorem construction_never_fails_witness : generateTradingDays 5 3 = [] :=
  construction_never_fails.2 5 3 (by norm_num)

/-- C8.  Rounding granularity: in every generated record the four price fields
are integer multiples of `1/10000` and the volume field is an integer multiple
of `1/100` (indeed an integer divided by 100), interpreting the arithmetic
exactly over ℚ. -/
theorem rounding_granularity (id : ℕ) (date : String) (pc : Option ℚ) :
    (∃ a : ℤ, (generateStockPrice id date pc).«open» = (a : ℚ) / 10000) ∧
    (∃ b : ℤ, (generateStockPrice id date pc).high = (b : ℚ) / 10000) ∧
    (∃ c : ℤ, (generateStockPrice id date pc).low = (c : ℚ) / 10000) ∧
    (∃ d : ℤ, (generateStockPrice id date pc).close = (d : ℚ) / 10000) ∧
    (∃ v : ℤ, (generateStockPrice id date pc).volume = (v : ℚ) / 100) := by
  simp only [generateStockPrice_eq]
  exact ⟨⟨_, round4_eq _⟩, ⟨_, round4_eq _⟩, ⟨_, round4_eq _⟩, ⟨_, round4_eq _⟩,
    ⟨_, by rw [jsRound_eq]⟩⟩

theorem streaming_tradingLoop_eq :
    ∀ n d : ℕ, StreamingDataGenerator.tradingLoop n d = StockDataGenerator.tradingLoop n d := by
  intro n
  induction n with
  | zero => intro d; rfl
  | succ n ih =>
    intro d
    show (if dayOfWeek d ≠ 0 ∧ dayOfWeek d ≠ 6 then d :: StreamingDataGenerator.tradingLoop n (d + 1)
      else StreamingDataGenerator.tradingLoop n (d + 1)) = _
    rw [ih (d + 1)]
    rfl

theorem streaming_generateTradingDays_eq (s e : ℕ) :
    StreamingDataGenerator.generateTradingDays s e = StockDataGenerator.generateTradingDays s e := by
  unfold StreamingDataGenerator.generateTradingDays StockDataGenerator.generateTradingDays
  rw [streaming_tradingLoop_eq (e + 1 - s) s]

/-- C9.  The two generator implementations are equivalent: per-record
generation and trading-day construction agree pointwise between
`StockDataGenerator` and `StreamingDataGenerator` (the two class bodies are
textually identical), and the two constructed `tradingDays` fields are equal. -/
theorem generators_equivalent :
    (∀ (id : ℕ) (date : String) (pc : Option ℚ),
      StockDataGenerator.generateStockPrice id date pc =
        StreamingDataGenerator.generateStockPrice id date pc) ∧
    (∀ s e : ℕ, StockDataGenerator.generateTradingDays s e =
      StreamingDataGenerator.generateTradingDays s e) ∧
    StockDataGenerator.tradingDays = StreamingDataGenerator.tradingDays :=
  ⟨fun _ _ _ => rfl, fun s e => (streaming_generateTradingDays_eq s e).symm,
    (streaming_generateTradingDays_eq _ _).symm⟩

/-- C10.  A zero `previous_close` is treated as absent: the falsy check
`previousClose || basePrice` makes `generateStockPrice` with
`previous_close = 0` return exactly the record generated with `previous_close`
absent, both starting the walk from the anchor `basePrice =
50 + (id % 1000) * 0.1` rather than from `0`. -/
theorem zero_previousClose_treated_absent (id : ℕ) (date : String) :
    generateStockPrice id date (some 0) = generateStockPrice id date none ∧
    startPrice id (some 0) = basePrice id ∧ startPrice id none = basePrice id := by
  refine ⟨?_, by simp [startPrice], rfl⟩
  simp only [generateStockPrice_eq, opOf, hiOf, loOf, clOf, startPrice_some_zero]

section DecideEvaluation

attribute [local semireducible] Rat.add Rat.sub Rat.mul Rat.inv Rat.ofScientific

/-- C4 counterexample: at `(instrument_id, date, previous_close) =
(1, "2014-01-01", none)` the returned volume is NOT the 2-decimal rounding of
the raw product `baseVolume * volumeMultiplier * (0.5 + rng())` — the code
rounds the product to a whole number first (the product's 2-decimal rounding
is 79716.23 while the returned volume is 79716). -/
theorem volume_round2_counterexample :
    (generateStockPrice 1 "2014-01-01" none).volume ≠
      round2 (volumeProduct 1 "2014-01-01" none) := by
  decide

/-- C5 counterexample: for the concrete range with start 2023-12-31 AFTER end
2014-01-01, construction does not fail — it succeeds with the empty calendar —
refuting "fails fast with a configuration error if and only if start is after
end". -/
theorem construction_failure_claim_counterexample :
    daysFromCivil 2014 1 1 < daysFromCivil 2023 12 31 ∧
    constructionResult (daysFromCivil 2023 12 31) (daysFromCivil 2014 1 1) = Except.ok [] :=
  ⟨by decide, congrArg Except.ok (by decide)⟩

/-- C6.  Calendar correctness: the day list built by the trading-day loop for
start `s` and end `e` contains exactly the days of the inclusive range whose
day-of-week is neither Sunday nor Saturday, in strictly ascending order; and
for the concrete range 2014-01-01..2014-01-07 the built calendar is exactly
the five ISO dates 2014-01-01, 2014-01-02, 2014-01-03, 2014-01-06,
2014-01-07. -/
theorem tradingCalendar_correct :
    (∀ s e d : ℕ, d ∈ StockDataGenerator.tradingLoop (e + 1 - s) s ↔
      (s ≤ d ∧ d ≤ e ∧ dayOfWeek d ≠ 0 ∧ dayOfWeek d ≠ 6)) ∧
    (∀ s e : ℕ, List.Sorted (· < ·) (StockDataGenerator.tradingLoop (e + 1 - s) s)) ∧
    generateTradingDays (daysFromCivil 2014 1 1) (daysFromCivil 2014 1 7) =
      ["2014-01-01", "2014-01-02", "2014-01-03", "2014-01-06", "2014-01-07"] := by
  refine ⟨?_, fun s e => sorted_tradingLoop _ _, by decide⟩
  intro s e d
  rw [mem_tradingLoop]
  constructor
  · rintro ⟨h1, h2, h3, h4⟩
    exact ⟨h1, by omega, h3, h4⟩
  · rintro ⟨h1, h2, h3, h4⟩
    exact ⟨h1, by omega, h3, h4⟩

/-- C7.  Continuity: for instrument 42 and the first 3 trading days of the
calendar, the sequence generated by threading each close forward as the next
day's `previous_close` differs from the records generated independently with
`previous_close` absent — the carry-forward dependency is real. -/
theorem continuity_threading_matters :
    generateSeries 42 none (tradingDays.take 3) ≠
      (tradingDays.take 3).map (fun d => generateStockPrice 42 d none) := by
  decide

end DecideEvaluation
